import Mathlib

/-!
Shallow embedding of `google/generativeai/client.py`: the configuration and
lazy client-factory subsystem (`_ClientManager`, the module-level `configure`,
`get_default_client`, `get_default_operations_client`, and the
metadata-injecting wrapper `add_default_metadata_wrapper`).

Mutable Python state is passed explicitly: a `Sys` value carries the
module-level `_client_manager`, the process environment, and a fresh-object
counter that models Python object identity (two constructions never yield the
identical object). Raising an exception is modelled by returning the state
together with `some error` (for `configure`) or an `Except.error` (for
construction failures of the external collaborator classes).
-/

set_option maxHeartbeats 1000000

namespace GenAI

/-- Version string of the package. `google.generativeai.version` is outside the
modelled sources; `client.py` falls back to "0.0.0" when that import fails
(lines 15–20). Its exact value is irrelevant to every property proved below. -/
def __version__ : String := "0.0.0"

/-- Line 22: `USER_AGENT = "genai-py"`. -/
def USER_AGENT : String := "genai-py"

/-- Python truthiness of an optional string: `None` and `""` are falsy, every
other string is truthy. -/
def pyTruthyStr : Option String → Bool
  | none => false
  | some s => !s.isEmpty

/-- Python `str.lower`, computed on the character list. -/
def pyLower (s : String) : String := String.mk (s.data.map Char.toLower)

/-- Python `str.title` for the service names reaching `make_client` (single
words without internal separators): first character upper-cased, the rest
lower-cased. -/
def pyTitle (s : String) : String :=
  match s.data with
  | [] => ""
  | c :: cs => String.mk (Char.toUpper c :: cs.map Char.toLower)

/-- Python `str.endswith`, computed on the character lists. -/
def pyEndsWith (s suff : String) : Bool :=
  s.data.reverse.take suff.data.length == suff.data.reverse

/-- Python `name.split("_")[0]`: the characters before the first underscore
(the whole string when it has none). -/
def pySplitHead (s : String) : String :=
  String.mk (s.data.takeWhile (fun c => c != '_'))

/-- `client_options_lib.ClientOptions`: only the `api_key` attribute is ever
read (line 71) or written (line 82) by `client.py`; the other endpoint fields
are never examined, so they are not modelled. A dict argument is converted by
`from_dict` (line 67) to the same shape. `ClientOptions()` has `api_key = None`. -/
structure ClientOptions where
  api_key : Option String
  deriving DecidableEq

/-- `ClientOptions()` (line 69). -/
def ClientOptions.default : ClientOptions := { api_key := none }

/-- `gapic_v1.client_info.ClientInfo`: only `user_agent` is read or written
(lines 85–92). -/
structure ClientInfo where
  user_agent : Option String
  deriving DecidableEq

/-- The `client_config` dict assembled at lines 94–101: keys `credentials`,
`transport`, `client_options`, `client_info`, with `None`-valued entries
filtered out (line 101), so a field is `some v` exactly when the key is
present in the dict. `credentials` is an abstract authorization object, not
inspected by this module. The dataclass default (line 27) is the empty dict: all absent. -/
structure ClientConfig where
  credentials : Option String
  transport : Option String
  client_options : Option ClientOptions
  client_info : Option ClientInfo
  deriving DecidableEq

/-- The empty `client_config` dict (dataclass default, line 27). -/
def ClientConfig.empty : ClientConfig :=
  { credentials := none, transport := none, client_options := none, client_info := none }

/-- Python falsiness of the `client_config` dict (`if not self.client_config`,
line 116): the dict is empty exactly when every optional entry is absent. -/
def ClientConfig.isEmpty (c : ClientConfig) : Bool :=
  c.credentials.isNone && c.transport.isNone && c.client_options.isNone && c.client_info.isNone

/-- Lines 109–113: resolve the collaborator class looked up on `glm`. A name
ending in `"_async"` maps to `glm.{name.split("_")[0].title()}ServiceAsyncClient`,
anything else to `glm.{name.title()}ServiceClient`. Python `str.title` agrees
with `String.capitalize` on the single-word service names used here. -/
def clsName (name : String) : String :=
  if pyEndsWith name "_async" then
    pyTitle (pySplitHead name) ++ "ServiceAsyncClient"
  else
    pyTitle name ++ "ServiceClient"

/-- A constructed collaborator service client (`cls(**self.client_config)`,
line 119). `id` models Python object identity: every construction allocates a
fresh id, so two separately constructed clients are never the identical
object. `wrapped` records whether lines 143–148 replaced the client's public
operations with `add_default_metadata_wrapper` adapters (this happens exactly
when `self.default_metadata` was non-empty at construction, lines 121–122). -/
structure Client where
  id : Nat
  cls : String
  config : ClientConfig
  wrapped : Bool
  deriving DecidableEq

/-- The `operations_v1.OperationsClient` living on a model client's transport
(`model_client._transport.operations_client`, line 167). Its identity is tied
to the model client owning the transport. -/
structure OperationsClient where
  transportOwnerId : Nat
  deriving DecidableEq

/-- `model_client._transport.operations_client` (line 167): plain attribute
access extracting the transport's embedded operations client, with no wrapping
or adaptation applied. -/
def Client.transport_operations_client (c : Client) : OperationsClient :=
  { transportOwnerId := c.id }

/-- A value stored in the `self.clients` cache: either a constructed service
client or the extracted operations client (the dict is untyped in Python). -/
inductive CachedClient where
  | svc : Client → CachedClient
  | ops : OperationsClient → CachedClient
  deriving DecidableEq

/-- The object identity of a cached value. -/
def CachedClient.cid : CachedClient → Nat
  | .svc c => c.id
  | .ops o => o.transportOwnerId

/-- `self.clients.get(name)` on the cache dict, modelled as an association
list. -/
def cacheGet : List (String × CachedClient) → String → Option CachedClient
  | [], _ => none
  | kv :: rest, k => if kv.1 = k then some kv.2 else cacheGet rest k

/-- `self.clients[name] = client`: dict assignment (update or append). -/
def cacheSet : List (String × CachedClient) → String → CachedClient → List (String × CachedClient)
  | [], k, v => [(k, v)]
  | kv :: rest, k, v => if kv.1 = k then (k, v) :: rest else kv :: cacheSet rest k v

/-- The `_ClientManager` dataclass (lines 25–31). The `discuss_client` and
`discuss_async_client` fields are never read or written anywhere in the file,
so they are not modelled. -/
structure ClientManager where
  client_config : ClientConfig
  default_metadata : List (String × String)
  clients : List (String × CachedClient)
  deriving DecidableEq

/-- `_ClientManager()`: dataclass defaults (lines 27–31). -/
def ClientManager.init : ClientManager :=
  { client_config := ClientConfig.empty, default_metadata := [], clients := [] }

/-- The keyword arguments of `configure` (lines 33–48); every parameter
defaults to `None` (the empty sequence for `default_metadata`). A dict passed
for `client_options` is normalized by `from_dict` (line 67) to the same
`ClientOptions` shape, so both forms are modelled by `Option ClientOptions`. -/
structure ConfigureArgs where
  api_key : Option String
  credentials : Option String
  transport : Option String
  client_options : Option ClientOptions
  client_info : Option ClientInfo
  default_metadata : List (String × String)
  deriving DecidableEq

/-- `configure()` with every argument left at its default. -/
def noArgs : ConfigureArgs :=
  { api_key := none, credentials := none, transport := none,
    client_options := none, client_info := none, default_metadata := [] }

/-- The `ValueError` raised at line 75 when both an explicit `api_key` and a
non-empty `client_options.api_key` are supplied. -/
inductive ConfigureError where
  | conflict
  deriving DecidableEq

/-- `_ClientManager.configure` (lines 33–106). `env` is the value of the
`GOOGLE_API_KEY` environment variable read at line 80. The result pairs the
manager after the call with the exception raised, if any: the `ValueError` at
line 75 is raised before any assignment to `self` (those happen only at lines
103–106), so on error the manager is returned exactly as it was. -/
def ClientManager.configure (m : ClientManager) (env : Option String) (a : ConfigureArgs) :
    ClientManager × Option ConfigureError :=
  let client_options := a.client_options.getD ClientOptions.default
  let had_api_key_value := pyTruthyStr client_options.api_key
  if had_api_key_value && a.api_key.isSome then
    (m, some ConfigureError.conflict)
  else
    let client_options :=
      if had_api_key_value then client_options
      else
        { client_options with
          api_key := if a.api_key.isNone then env else a.api_key }
    let user_agent := USER_AGENT ++ "/" ++ __version__
    let client_info :=
      match a.client_info with
      | some ci =>
        if pyTruthyStr ci.user_agent then
          { ci with user_agent := some (ci.user_agent.getD "" ++ " " ++ user_agent) }
        else
          { ci with user_agent := some user_agent }
      | none => ClientInfo.mk (some user_agent)
    ({ m with
       client_config :=
         { credentials := a.credentials, transport := a.transport,
           client_options := some client_options, client_info := some client_info },
       default_metadata := a.default_metadata,
       clients := [] },
     none)

/-- An exception propagating out of client construction: `ctorFailure` is any
error raised by the external collaborator constructor `cls(**config)` at line
119 (e.g. invalid credentials), whose failure behaviour is a parameter of the
model (the `fails` oracle below); `attributeError` models an attribute lookup
failing on an object of the wrong shape. -/
inductive ExtError where
  | ctorFailure : String → ExtError
  | attributeError : ExtError
  deriving DecidableEq

/-- The process-wide state: the module-level `_client_manager` (line 214), the
environment, and a fresh-object counter modelling Python object identity. -/
structure Sys where
  mgr : ClientManager
  env : Option String
  nextId : Nat
  deriving DecidableEq

/-- The module-level `configure` (lines 172–211): forwards every argument to
`_client_manager.configure`. On an exception the state is unchanged. -/
def Sys.configure (s : Sys) (a : ConfigureArgs) : Sys × Option ConfigureError :=
  match s.mgr.configure s.env a with
  | (m, e) => ({ s with mgr := m }, e)

/-- `_ClientManager.make_client` (lines 108–150) as executed on the
module-level `_client_manager` itself: the bare `configure()` at line 117 is
the module-level function, which targets `_client_manager`, i.e. this very
manager. The external constructor `cls(**self.client_config)` (line 119) may
fail, as decided by the `fails` oracle; on success it allocates a fresh
object. Lines 121–148: when `self.default_metadata` is non-empty every public
plain-function operation of the new client is replaced by an
`add_default_metadata_wrapper` adapter (recorded in the `wrapped` flag);
when it is empty the client is returned unmodified. -/
def Sys.make_client (fails : String → ClientConfig → Bool) (s : Sys) (name : String) :
    Sys × Except ExtError Client :=
  let cls := clsName name
  let s :=
    if s.mgr.client_config.isEmpty then
      { s with mgr := (s.mgr.configure s.env noArgs).1 }
    else s
  if fails cls s.mgr.client_config then
    (s, Except.error (ExtError.ctorFailure cls))
  else
    let client : Client :=
      { id := s.nextId, cls := cls, config := s.mgr.client_config,
        wrapped := !s.mgr.default_metadata.isEmpty }
    ({ s with nextId := s.nextId + 1 }, Except.ok client)

/-- The non-"operations" branch of `get_default_client` (lines 157–161), with
`name` already lower-cased: return the cached client if present, otherwise
build one with `make_client` and store it under `name`. -/
def Sys.lookup_or_make (fails : String → ClientConfig → Bool) (s : Sys) (name : String) :
    Sys × Except ExtError CachedClient :=
  match cacheGet s.mgr.clients name with
  | some client => (s, Except.ok client)
  | none =>
    match s.make_client fails name with
    | (s1, Except.error e) => (s1, Except.error e)
    | (s1, Except.ok client) =>
      ({ s1 with
         mgr := { s1.mgr with clients := cacheSet s1.mgr.clients name (CachedClient.svc client) } },
       Except.ok (CachedClient.svc client))

/-- `_ClientManager.get_default_operations_client` (lines 163–169): return the
cached "operations" entry if present; otherwise obtain the default model
client via `self.get_default_client("Model")` (whose lower-cased name "model"
takes the ordinary lookup path), extract `_transport.operations_client` from
it as-is, cache that under "operations" and return it. A cached non-service
value under "model" (impossible through this module's API) would make the
`_transport` attribute access fail. -/
def Sys.get_default_operations_client (fails : String → ClientConfig → Bool) (s : Sys) :
    Sys × Except ExtError CachedClient :=
  match cacheGet s.mgr.clients "operations" with
  | some client => (s, Except.ok client)
  | none =>
    match s.lookup_or_make fails "model" with
    | (s1, Except.error e) => (s1, Except.error e)
    | (s1, Except.ok (CachedClient.ops _)) => (s1, Except.error ExtError.attributeError)
    | (s1, Except.ok (CachedClient.svc mc)) =>
      let client := mc.transport_operations_client
      ({ s1 with
         mgr := { s1.mgr with
                  clients := cacheSet s1.mgr.clients "operations" (CachedClient.ops client) } },
       Except.ok (CachedClient.ops client))

/-- `_ClientManager.get_default_client` (lines 152–161): lower-case the name,
redirect "operations" to the special lookup, otherwise look up or construct
and cache. -/
def Sys.get_default_client (fails : String → ClientConfig → Bool) (s : Sys) (name : String) :
    Sys × Except ExtError CachedClient :=
  let name := pyLower name
  if name = "operations" then
    s.get_default_operations_client fails
  else
    s.lookup_or_make fails name

/-- `add_default_metadata_wrapper` (lines 136–141): the adapter
`call(*args, metadata=(), **kwargs)` computes
`metadata = list(metadata) + list(self.default_metadata)` and invokes
`f(*args, **kwargs, metadata=metadata)`. `args` bundles all positional and
keyword arguments, which pass through unchanged; `self_default_metadata` is
the value of `self.default_metadata` read from the manager at call time (the
closure captures `self`, not the sequence). -/
def add_default_metadata_wrapper {α ρ : Type} (f : α → List (String × String) → ρ)
    (self_default_metadata : List (String × String)) :
    α → List (String × String) → ρ :=
  fun args metadata => f args (metadata ++ self_default_metadata)

/-- Invoking a public operation of a constructed client whose original bound
operation is `f`, with caller-supplied metadata `m`, when the manager's
`default_metadata` at call time is `dm`: on a wrapped client every public
operation was replaced by `add_default_metadata_wrapper` (lines 143–148); on
an unwrapped client the original operation is called directly (line 122). -/
def Client.invokeOp {α ρ : Type} (c : Client) (dm : List (String × String))
    (f : α → List (String × String) → ρ) (args : α) (m : List (String × String)) : ρ :=
  if c.wrapped then add_default_metadata_wrapper f dm args m else f args m

/-- Cache well-formedness: every cached object was allocated before the next
fresh id. This holds for every state reachable through the module's API. -/
def Sys.wf (s : Sys) : Prop :=
  ∀ kv ∈ s.mgr.clients, CachedClient.cid kv.2 < s.nextId

/-- Lines 214–215: the module creates `_client_manager = _ClientManager()` and
immediately runs `_client_manager.configure()`, so the module-level manager
starts configured (its `client_config` dict is non-empty from then on). -/
def initSys (env : Option String) : Sys :=
  { mgr := (ClientManager.init.configure env noArgs).1, env := env, nextId := 0 }

/-- `_ClientManager.make_client` (lines 108–150) as executed on a manager
instance that is NOT the module-level `_client_manager`: the bare
`configure()` at line 117 is the module-level function (lines 172–211), which
delegates to `_client_manager.configure` — it mutates the module-level
manager and leaves `self` untouched, so construction at line 119 still uses
the (unchanged) `self.client_config`. -/
structure TwoManagers where
  self : ClientManager
  globalMgr : ClientManager
  env : Option String
  nextId : Nat
  deriving DecidableEq

/-- See `TwoManagers`: `make_client` on a non-module-level manager. -/
def TwoManagers.make_client (fails : String → ClientConfig → Bool) (t : TwoManagers)
    (name : String) : TwoManagers × Except ExtError Client :=
  let cls := clsName name
  let t :=
    if t.self.client_config.isEmpty then
      { t with globalMgr := (t.globalMgr.configure t.env noArgs).1 }
    else t
  if fails cls t.self.client_config then
    (t, Except.error (ExtError.ctorFailure cls))
  else
    let client : Client :=
      { id := t.nextId, cls := cls, config := t.self.client_config,
        wrapped := !t.self.default_metadata.isEmpty }
    ({ t with nextId := t.nextId + 1 }, Except.ok client)

/-- A construction oracle under which no external constructor ever fails. -/
def neverFails : String → ClientConfig → Bool := fun _ _ => false

/-- A construction oracle under which every external constructor fails. -/
def alwaysFails : String → ClientConfig → Bool := fun _ _ => true

/-- `configure(api_key="X", client_options={"api_key": "Y"})`. -/
def argsXY : ConfigureArgs :=
  { noArgs with api_key := some "X", client_options := some { api_key := some "Y" } }

/-- `configure(api_key="K2")`. -/
def argsK2 : ConfigureArgs := { noArgs with api_key := some "K2" }

/-- `configure(default_metadata=[("d", "1")])`. -/
def argsD1 : ConfigureArgs := { noArgs with default_metadata := [("d", "1")] }

/-- `configure(default_metadata=[("e", "2")])`. -/
def argsE2 : ConfigureArgs := { noArgs with default_metadata := [("e", "2")] }

/-- State after `get_default_client("generative")` on the freshly imported
module (environment variable unset, no constructor failures). -/
def sC3 : Sys := ((initSys none).get_default_client neverFails "generative").1

/-- The client cached for "generative" in `sC3`. -/
def A0 : CachedClient :=
  CachedClient.svc
    { id := 0, cls := "GenerativeServiceClient",
      config := (initSys none).mgr.client_config, wrapped := false }

/-- State after reconfiguring `sC3` with `api_key="K2"`. -/
def sC3after : Sys := (sC3.configure argsK2).1

/-- The client constructed for "generative" after the reconfiguration. -/
def clientB1 : Client :=
  { id := 1, cls := "GenerativeServiceClient",
    config := sC3after.mgr.client_config, wrapped := false }

/-- State after `get_default_client("text")` on the freshly imported module. -/
def sC4 : Sys := ((initSys none).get_default_client neverFails "text").1

/-- The client cached for "text" in `sC4`. -/
def cText : CachedClient :=
  CachedClient.svc
    { id := 0, cls := "TextServiceClient",
      config := (initSys none).mgr.client_config, wrapped := false }

/-- State after `get_default_operations_client()` on the freshly imported
module. -/
def sC7 : Sys := ((initSys none).get_default_operations_client neverFails).1

/-- The model client constructed as a side effect in `sC7`. -/
def mcC7 : Client :=
  { id := 0, cls := "ModelServiceClient",
    config := (initSys none).mgr.client_config, wrapped := false }

/-- The operations client cached in `sC7`. -/
def oC7 : CachedClient := CachedClient.ops { transportOwnerId := 0 }

/-- State after `make_client("generative")` on the freshly imported module. -/
def sC8 : Sys := ((initSys none).make_client neverFails "generative").1

/-- The client built by `make_client("generative")` on the freshly imported
module (empty default metadata, hence unwrapped). -/
def cC8 : Client :=
  { id := 0, cls := "GenerativeServiceClient",
    config := (initSys none).mgr.client_config, wrapped := false }

/-- State configured with `default_metadata=[("d", "1")]`. -/
def sD1 : Sys := ((initSys none).configure argsD1).1

/-- State after `get_default_client("generative")` on `sD1`. -/
def sD1got : Sys := (sD1.get_default_client neverFails "generative").1

/-- The wrapped client constructed for "generative" under `sD1`. -/
def cD1 : Client :=
  { id := 0, cls := "GenerativeServiceClient",
    config := sD1.mgr.client_config, wrapped := true }

/-- State after reconfiguring `sD1got` with `default_metadata=[("e", "2")]`. -/
def sE2 : Sys := (sD1got.configure argsE2).1

/-- A `_ClientManager()` instance distinct from the module-level
`_client_manager` (both freshly constructed, before any `configure`). -/
def tmC6 : TwoManagers :=
  { self := ClientManager.init, globalMgr := ClientManager.init,
    env := some "E", nextId := 0 }

/-- A module-level state whose manager has never been configured (as between
lines 214 and 215 of the source). -/
def sEmptyCfg : Sys := { mgr := ClientManager.init, env := some "E", nextId := 0 }

/-! ## Helper lemmas -/

/-- Dict assignment followed by lookup of the same key finds the new value. -/
theorem cacheGet_set_same (c : List (String × CachedClient)) (k : String) (v : CachedClient) :
    cacheGet (cacheSet c k v) k = some v := by
  induction c with
  | nil => simp [cacheSet, cacheGet]
  | cons kv rest ih =>
    by_cases hk : kv.1 = k
    · simp [cacheSet, cacheGet, hk]
    · simp [cacheSet, cacheGet, hk, ih]

/-- Dict assignment leaves lookups of other keys unchanged. -/
theorem cacheGet_set_ne (c : List (String × CachedClient)) (k k2 : String)
    (v : CachedClient) (h : k ≠ k2) :
    cacheGet (cacheSet c k2 v) k = cacheGet c k := by
  have hne : ¬ (k2 = k) := Ne.symm h
  induction c with
  | nil => simp [cacheSet, cacheGet, hne]
  | cons kv rest ih =>
    by_cases hk : kv.1 = k2
    · have hk1 : ¬ (kv.1 = k) := fun hx => hne (hk ▸ hx)
      simp only [cacheSet, if_pos hk, cacheGet, if_neg hne, if_neg hk1]
    · simp only [cacheSet, if_neg hk, cacheGet]
      by_cases hk2 : kv.1 = k
      · simp only [if_pos hk2]
      · simp only [if_neg hk2, ih]

/-- Every object found in a well-formed cache was allocated earlier than the
next fresh id. -/
theorem wf_lookup_lt (clients : List (String × CachedClient)) (nid : Nat) (k : String)
    (A : CachedClient)
    (hall : ∀ kv ∈ clients, CachedClient.cid kv.2 < nid)
    (hA : cacheGet clients k = some A) : A.cid < nid := by
  induction clients with
  | nil => simp [cacheGet] at hA
  | cons kv rest ih =>
    unfold cacheGet at hA
    by_cases hk : kv.1 = k
    · rw [if_pos hk, Option.some.injEq] at hA
      rw [← hA]
      exact hall kv (List.mem_cons_self kv rest)
    · rw [if_neg hk] at hA
      exact ih (fun x hx => hall x (List.mem_cons_of_mem kv hx)) hA

/-- A successful `configure` call stores the requested default metadata,
clears the cache, allocates nothing, leaves the environment alone, and leaves
the `client_config` dict non-empty (it always contains `client_options` and
`client_info`). -/
theorem configure_ok_fields (s : Sys) (a : ConfigureArgs) (s2 : Sys)
    (h : s.configure a = (s2, none)) :
    s2.mgr.default_metadata = a.default_metadata ∧ s2.mgr.clients = [] ∧
    s2.nextId = s.nextId ∧ s2.env = s.env ∧
    s2.mgr.client_config.isEmpty = false := by
  unfold Sys.configure ClientManager.configure at h
  by_cases hc : pyTruthyStr (a.client_options.getD ClientOptions.default).api_key
      && a.api_key.isSome
  · rw [if_pos hc] at h
    simp at h
  · rw [if_neg hc] at h
    rw [Prod.mk.injEq] at h
    rw [← h.1]
    refine ⟨rfl, rfl, rfl, rfl, ?_⟩
    simp [ClientConfig.isEmpty]

/-- A no-argument `configure()` cannot raise, stores empty default metadata
and a non-empty `client_config`, and clears the cache. -/
theorem configure_noArgs_fields (m : ClientManager) (env : Option String) :
    (m.configure env noArgs).1.default_metadata = [] ∧
    (m.configure env noArgs).2 = none ∧
    (m.configure env noArgs).1.client_config.isEmpty = false ∧
    (m.configure env noArgs).1.clients = [] :=
  ⟨rfl, rfl, rfl, rfl⟩

/-- After a successful lookup, the (lower-cased) name maps to the returned
client in the cache. -/
theorem lookup_or_make_caches (fails : String → ClientConfig → Bool) (s s1 : Sys)
    (name : String) (c : CachedClient)
    (h : s.lookup_or_make fails name = (s1, Except.ok c)) :
    cacheGet s1.mgr.clients name = some c := by
  unfold Sys.lookup_or_make at h
  split at h
  next client heq =>
    rw [Prod.mk.injEq, Except.ok.injEq] at h
    rw [← h.1, ← h.2]
    exact heq
  next heq =>
    split at h
    next => simp at h
    next sx client heq2 =>
      rw [Prod.mk.injEq, Except.ok.injEq] at h
      rw [← h.1, ← h.2]
      exact cacheGet_set_same sx.mgr.clients name (CachedClient.svc client)

/-- After a successful operations lookup, "operations" maps to the returned
client in the cache. -/
theorem get_ops_caches (fails : String → ClientConfig → Bool) (s s1 : Sys)
    (c : CachedClient)
    (h : s.get_default_operations_client fails = (s1, Except.ok c)) :
    cacheGet s1.mgr.clients "operations" = some c := by
  unfold Sys.get_default_operations_client at h
  split at h
  next client heq =>
    rw [Prod.mk.injEq, Except.ok.injEq] at h
    rw [← h.1, ← h.2]
    exact heq
  next heq =>
    split at h
    next => simp at h
    next => simp at h
    next sx mc heq2 =>
      rw [Prod.mk.injEq, Except.ok.injEq] at h
      rw [← h.1, ← h.2]
      exact cacheGet_set_same sx.mgr.clients "operations"
        (CachedClient.ops mc.transport_operations_client)

/-- After any successful `get_default_client`, the lower-cased name maps to
the returned client in the cache. -/
theorem get_caches (fails : String → ClientConfig → Bool) (s s1 : Sys)
    (n : String) (c : CachedClient)
    (h : s.get_default_client fails n = (s1, Except.ok c)) :
    cacheGet s1.mgr.clients (pyLower n) = some c := by
  simp only [Sys.get_default_client] at h
  by_cases hop : pyLower n = "operations"
  · rw [if_pos hop] at h
    rw [hop]
    exact get_ops_caches fails s s1 c h
  · rw [if_neg hop] at h
    exact lookup_or_make_caches fails s s1 (pyLower n) c h

/-! ## Claim theorems -/

/-- C1: for every prior state, calling `configure` with both a non-`None`
explicit `api_key` argument and a `client_options` value already carrying a
non-empty API key raises the `ValueError` of line 75, and the stored snapshot
(`client_config` and `default_metadata`) and the client cache are exactly as
they were before the call (the returned state is the prior state itself). -/
theorem c1_configure_conflict (s : Sys) (a : ConfigureArgs)
    (h1 : a.api_key.isSome = true)
    (h2 : pyTruthyStr (a.client_options.getD ClientOptions.default).api_key = true) :
    s.configure a = (s, some ConfigureError.conflict) := by
  simp only [Sys.configure, ClientManager.configure, h2, h1]
  simp

/-- Witness for C1 at `configure(api_key="X", client_options={"api_key": "Y"})`
on the freshly imported module state. -/
theorem c1_configure_conflict_witness :
    argsXY.api_key.isSome = true ∧
    pyTruthyStr (argsXY.client_options.getD ClientOptions.default).api_key = true ∧
    (initSys none).configure argsXY = (initSys none, some ConfigureError.conflict) :=
  ⟨rfl, rfl, c1_configure_conflict (initSys none) argsXY rfl rfl⟩

/-- C2: a wrapped operation invokes the original operation with the same
arguments and with metadata equal to the caller-supplied metadata followed by
the configured default metadata, in that order, with no deduplication or
reordering; in particular with defaults `[("d","1")]` and caller metadata
`[("c","2")]` the original receives exactly `[("c","2"), ("d","1")]`. -/
theorem c2_metadata_merge_order :
    (∀ (α ρ : Type) (f : α → List (String × String) → ρ)
      (dm m : List (String × String)) (args : α),
      add_default_metadata_wrapper f dm args m = f args (m ++ dm)) ∧
    add_default_metadata_wrapper (fun (_ : Unit) md => md) [("d", "1")] () [("c", "2")] =
      [("c", "2"), ("d", "1")] :=
  ⟨fun _ _ _ _ _ _ => rfl, rfl⟩

/-- C5: when `configure` is called with no explicit `api_key` and a
`client_options` carrying no non-empty API key, it succeeds without error and
the resulting snapshot's `client_options.api_key` equals the value of the
`GOOGLE_API_KEY` environment variable — `some "Z"` when the variable is set to
"Z", and `none` (unset) when the variable is absent. -/
theorem c5_env_fallback (s : Sys) (a : ConfigureArgs)
    (h1 : a.api_key = none)
    (h2 : pyTruthyStr (a.client_options.getD ClientOptions.default).api_key = false) :
    (s.configure a).2 = none ∧
    (s.configure a).1.mgr.client_config.client_options =
      some { (a.client_options.getD ClientOptions.default) with api_key := s.env } := by
  simp only [Sys.configure, ClientManager.configure, h2, h1]
  simp

/-- Witness for C5: a no-argument `configure()` with `GOOGLE_API_KEY=Z` yields
a snapshot whose API key is "Z". -/
theorem c5_env_fallback_witness :
    noArgs.api_key = none ∧
    pyTruthyStr (noArgs.client_options.getD ClientOptions.default).api_key = false ∧
    ((initSys (some "Z")).configure noArgs).2 = none ∧
    ((initSys (some "Z")).configure noArgs).1.mgr.client_config.client_options =
      some { api_key := some "Z" } :=
  ⟨rfl, rfl, (c5_env_fallback (initSys (some "Z")) noArgs rfl rfl).1,
    (c5_env_fallback (initSys (some "Z")) noArgs rfl rfl).2⟩

/-- C4: two consecutive `get_default_client(n)` calls with no intervening
`configure` return the identical client instance: the second call finds the
lower-cased name in the cache and returns the stored object unchanged, with
no reconstruction (the state, fresh-object counter included, is unchanged)
and no re-wrapping. -/
theorem c4_idempotent_cache (fails : String → ClientConfig → Bool) (s s1 : Sys)
    (n : String) (c : CachedClient)
    (h : s.get_default_client fails n = (s1, Except.ok c)) :
    s1.get_default_client fails n = (s1, Except.ok c) := by
  have hc := get_caches fails s s1 n c h
  simp only [Sys.get_default_client]
  by_cases hop : pyLower n = "operations"
  · rw [if_pos hop]
    rw [hop] at hc
    unfold Sys.get_default_operations_client
    rw [hc]
  · rw [if_neg hop]
    unfold Sys.lookup_or_make
    rw [hc]

/-- Witness for C4: looking up "text" twice on the freshly imported module
returns the identical cached instance and leaves the state unchanged. -/
theorem c4_idempotent_cache_witness :
    (initSys none).get_default_client neverFails "text" = (sC4, Except.ok cText) ∧
    sC4.get_default_client neverFails "text" = (sC4, Except.ok cText) :=
  ⟨rfl, c4_idempotent_cache neverFails (initSys none) sC4 "text" cText rfl⟩

/-- C8: when the snapshot's default-metadata sequence is empty, `make_client`
returns the constructed collaborator client with no wrapping step performed
(lines 121–122): the client is not wrapped, and invoking any of its operations
calls the original bound operation with the caller's arguments and metadata
untouched — no adapter layer is introduced. -/
theorem c8_no_wrapper_when_metadata_empty (fails : String → ClientConfig → Bool)
    (s s1 : Sys) (name : String) (c : Client)
    (hdm : s.mgr.default_metadata = [])
    (h : s.make_client fails name = (s1, Except.ok c)) :
    c.wrapped = false ∧
    ∀ (α ρ : Type) (f : α → List (String × String) → ρ)
      (dm m : List (String × String)) (args : α),
      c.invokeOp dm f args m = f args m := by
  have hw : c.wrapped = false := by
    simp only [Sys.make_client] at h
    by_cases he : s.mgr.client_config.isEmpty
    · rw [if_pos he] at h
      split at h
      · simp at h
      · rw [Prod.mk.injEq, Except.ok.injEq] at h
        rw [← h.2]
        simp [(configure_noArgs_fields s.mgr s.env).1]
    · rw [if_neg he] at h
      split at h
      · simp at h
      · rw [Prod.mk.injEq, Except.ok.injEq] at h
        rw [← h.2]
        simp [hdm]
  refine ⟨hw, fun α ρ f dm m args => ?_⟩
  simp [Client.invokeOp, hw]

/-- Witness for C8: `make_client("generative")` on the freshly imported module
(empty default metadata) yields an unwrapped client whose operations receive
the caller's metadata untouched. -/
theorem c8_no_wrapper_when_metadata_empty_witness :
    (initSys none).mgr.default_metadata = [] ∧
    (initSys none).make_client neverFails "generative" = (sC8, Except.ok cC8) ∧
    cC8.wrapped = false ∧
    cC8.invokeOp [("z", "9")] (fun (_ : Unit) md => md) () [("x", "y")] = [("x", "y")] :=
  have h := c8_no_wrapper_when_metadata_empty neverFails (initSys none) sC8
    "generative" cC8 rfl rfl
  ⟨rfl, rfl, h.1, h.2 Unit (List (String × String)) (fun _ md => md) [("z", "9")] [("x", "y")] ()⟩

/-- C9: for a service name `n` that is not cached (and is not the special
"operations" name), when the external collaborator constructor invoked by
`make_client` raises, `get_default_client(n)` propagates that very error
unchanged to the caller — no catching, wrapping or retrying — and returns the
state exactly as it was before the call: the cache is untouched and nothing is
stored under `n`. (`client_config` is non-empty for every state reachable
after the module initialization at line 215.) -/
theorem c9_ctor_failure_propagates (fails : String → ClientConfig → Bool)
    (s : Sys) (n : String)
    (hop : pyLower n ≠ "operations")
    (hne : s.mgr.client_config.isEmpty = false)
    (hmiss : cacheGet s.mgr.clients (pyLower n) = none)
    (hfail : fails (clsName (pyLower n)) s.mgr.client_config = true) :
    s.get_default_client fails n =
      (s, Except.error (ExtError.ctorFailure (clsName (pyLower n)))) := by
  simp only [Sys.get_default_client]
  rw [if_neg hop]
  unfold Sys.lookup_or_make
  rw [hmiss]
  simp only [Sys.make_client, hne]
  simp [hfail]

/-- Witness for C9: with a constructor oracle that always fails, looking up
the uncached "generative" on the freshly imported module propagates the
construction error and leaves the state exactly as it was. -/
theorem c9_ctor_failure_propagates_witness :
    pyLower "generative" ≠ "operations" ∧
    (initSys none).mgr.client_config.isEmpty = false ∧
    cacheGet (initSys none).mgr.clients (pyLower "generative") = none ∧
    (initSys none).get_default_client alwaysFails "generative" =
      (initSys none, Except.error (ExtError.ctorFailure (clsName (pyLower "generative")))) :=
  ⟨by decide, rfl, rfl,
    c9_ctor_failure_propagates alwaysFails (initSys none) "generative" (by decide) rfl rfl rfl⟩

/-- C10: the default metadata a wrapped operation appends is the manager's
`default_metadata` value at the time the operation is called, not the value at
construction time: after a later successful `configure` replaces
`default_metadata`, a previously constructed wrapped client still held by a
caller appends the new default metadata on subsequent calls. -/
theorem c10_call_time_default_metadata (fails : String → ClientConfig → Bool)
    (s s1 s2 : Sys) (n : String) (c : Client) (a : ConfigureArgs)
    {α ρ : Type} (f : α → List (String × String) → ρ)
    (args : α) (m : List (String × String))
    (_hget : s.get_default_client fails n = (s1, Except.ok (CachedClient.svc c)))
    (hw : c.wrapped = true)
    (hc : s1.configure a = (s2, none)) :
    c.invokeOp s2.mgr.default_metadata f args m = f args (m ++ a.default_metadata) := by
  obtain ⟨hdm, -, -, -, -⟩ := configure_ok_fields s1 a s2 hc
  simp [Client.invokeOp, add_default_metadata_wrapper, hw, hdm]

/-- Witness for C10: a client wrapped under defaults `[("d","1")]`, after a
reconfiguration to defaults `[("e","2")]`, appends the new defaults. -/
theorem c10_call_time_default_metadata_witness :
    sD1.get_default_client neverFails "generative" =
      (sD1got, Except.ok (CachedClient.svc cD1)) ∧
    cD1.wrapped = true ∧
    sD1got.configure argsE2 = (sE2, none) ∧
    cD1.invokeOp sE2.mgr.default_metadata (fun (_ : Unit) md => md) () [("c", "2")] =
      [("c", "2"), ("e", "2")] :=
  ⟨rfl, rfl, rfl,
    c10_call_time_default_metadata neverFails sD1 sD1got sE2 "generative" cD1 argsE2
      (fun _ md => md) () [("c", "2")] rfl rfl rfl⟩

/-- C7: starting from an empty cache, `get_default_operations_client()` causes
the model client to be constructed and cached under "model" as a side effect,
extracts the operations client from the model client's transport and caches
exactly that extracted object (no metadata wrapping applied) under
"operations", and every repeated call returns the identical object with the
state unchanged. -/
theorem c7_operations_special (fails : String → ClientConfig → Bool) (s s1 : Sys)
    (o : CachedClient)
    (hcache : s.mgr.clients = [])
    (h : s.get_default_operations_client fails = (s1, Except.ok o)) :
    (∃ mc : Client, cacheGet s1.mgr.clients "model" = some (CachedClient.svc mc) ∧
      o = CachedClient.ops mc.transport_operations_client) ∧
    cacheGet s1.mgr.clients "operations" = some o ∧
    s1.get_default_operations_client fails = (s1, Except.ok o) := by
  have hidem : cacheGet s1.mgr.clients "operations" = some o →
      s1.get_default_operations_client fails = (s1, Except.ok o) := by
    intro hc
    unfold Sys.get_default_operations_client
    rw [hc]
  unfold Sys.get_default_operations_client at h
  rw [hcache] at h
  simp only [cacheGet] at h
  split at h
  next => simp at h
  next => simp at h
  next sx mc heq =>
    have hmodel : cacheGet sx.mgr.clients "model" = some (CachedClient.svc mc) :=
      lookup_or_make_caches fails s sx "model" (CachedClient.svc mc) heq
    rw [Prod.mk.injEq, Except.ok.injEq] at h
    obtain ⟨h1, h2⟩ := h
    subst h1
    subst h2
    refine ⟨⟨mc, ?_, rfl⟩, ?_, hidem ?_⟩
    · rw [cacheGet_set_ne sx.mgr.clients "model" "operations" _ (by decide)]
      exact hmodel
    · exact cacheGet_set_same sx.mgr.clients "operations" _
    · exact cacheGet_set_same sx.mgr.clients "operations" _

/-- Witness for C7: on the freshly imported module (empty cache), the
operations lookup caches the model client, caches the extracted operations
object as-is, and a repeated call returns the identical object. -/
theorem c7_operations_special_witness :
    (initSys none).mgr.clients = [] ∧
    (initSys none).get_default_operations_client neverFails = (sC7, Except.ok oC7) ∧
    cacheGet sC7.mgr.clients "model" = some (CachedClient.svc mcC7) ∧
    oC7 = CachedClient.ops mcC7.transport_operations_client ∧
    cacheGet sC7.mgr.clients "operations" = some oC7 ∧
    sC7.get_default_operations_client neverFails = (sC7, Except.ok oC7) :=
  have h := c7_operations_special neverFails (initSys none) sC7 oC7 rfl rfl
  ⟨rfl, rfl, rfl, rfl, h.2.1, h.2.2⟩

/-- On a state with an empty cache and a non-empty snapshot (such as the
state right after any `configure` call), a successful lookup returns a client
whose object identity is the state's next fresh id — a newly constructed
object; when the name is not "operations" the result is exactly the service
client built from the snapshot's fields. -/
theorem get_on_clean_state (fails : String → ClientConfig → Bool) (s : Sys) (n : String)
    (hcl : s.mgr.clients = [])
    (hne : s.mgr.client_config.isEmpty = false) :
    ∀ s3 B, s.get_default_client fails n = (s3, Except.ok B) →
      B.cid = s.nextId ∧
      (pyLower n ≠ "operations" →
        B = CachedClient.svc
          { id := s.nextId, cls := clsName (pyLower n),
            config := s.mgr.client_config,
            wrapped := !s.mgr.default_metadata.isEmpty }) := by
  intro s3 B h
  simp only [Sys.get_default_client] at h
  by_cases hop : pyLower n = "operations"
  · rw [if_pos hop] at h
    unfold Sys.get_default_operations_client at h
    rw [hcl] at h
    simp only [cacheGet] at h
    unfold Sys.lookup_or_make at h
    rw [hcl] at h
    simp only [cacheGet] at h
    simp only [Sys.make_client, hne, Bool.false_eq_true, if_false] at h
    by_cases hfm : fails (clsName "model") s.mgr.client_config = true
    · simp only [hfm] at h
      simp at h
    · simp only [hfm] at h
      simp only [Bool.false_eq_true, if_false] at h
      simp only [Prod.mk.injEq, Except.ok.injEq] at h
      obtain ⟨h1, h2⟩ := h
      rw [← h2]
      exact ⟨rfl, fun hcontra => absurd hop hcontra⟩
  · rw [if_neg hop] at h
    unfold Sys.lookup_or_make at h
    rw [hcl] at h
    simp only [cacheGet] at h
    simp only [Sys.make_client, hne, Bool.false_eq_true, if_false] at h
    by_cases hfm : fails (clsName (pyLower n)) s.mgr.client_config = true
    · simp only [hfm] at h
      simp at h
    · simp only [hfm] at h
      simp only [Bool.false_eq_true, if_false] at h
      simp only [Prod.mk.injEq, Except.ok.injEq] at h
      obtain ⟨h1, h2⟩ := h
      rw [← h2]
      exact ⟨rfl, fun _ => rfl⟩

/-- C3: for every service name `n` cached before a `configure` call, a
successful `configure` removes every entry from the cache, and the next
`get_default_client(n)` returns a newly constructed instance — different from
the pre-reconfigure one (their object identities differ: the old object was
allocated before the call, the new one is the next fresh allocation) — and,
for ordinary service names, built exactly from the fields of the new
snapshot. -/
theorem c3_reconfigure_invalidates (fails : String → ClientConfig → Bool)
    (s s2 : Sys) (n : String) (A : CachedClient) (a : ConfigureArgs)
    (hwf : s.wf)
    (hA : cacheGet s.mgr.clients (pyLower n) = some A)
    (hc : s.configure a = (s2, none)) :
    s2.mgr.clients = [] ∧
    (∀ s3 B, s2.get_default_client fails n = (s3, Except.ok B) → B ≠ A) ∧
    (pyLower n ≠ "operations" →
      ∀ s3 b, s2.get_default_client fails n = (s3, Except.ok (CachedClient.svc b)) →
        b.config = s2.mgr.client_config ∧ b.id = s2.nextId) := by
  obtain ⟨hdm, hcl, hnid, henv, hne⟩ := configure_ok_fields s a s2 hc
  have hAlt : A.cid < s.nextId := wf_lookup_lt s.mgr.clients s.nextId (pyLower n) A hwf hA
  have hfresh := get_on_clean_state fails s2 n hcl hne
  refine ⟨hcl, ?_, ?_⟩
  · intro s3 B hB
    have h1 := (hfresh s3 B hB).1
    rw [hnid] at h1
    intro hEq
    rw [hEq] at h1
    omega
  · intro hop s3 b hB
    have h2 := (hfresh s3 _ hB).2 hop
    rw [CachedClient.svc.injEq] at h2
    rw [h2]
    exact ⟨rfl, rfl⟩

/-- Witness for C3: after caching "generative" and reconfiguring with
`api_key="K2"`, the cache is empty and the next lookup builds a different
client from the new snapshot. -/
theorem c3_reconfigure_invalidates_witness :
    sC3.configure argsK2 = (sC3after, none) ∧
    sC3after.mgr.clients = [] ∧
    CachedClient.svc clientB1 ≠ A0 ∧
    clientB1.config = sC3after.mgr.client_config ∧ clientB1.id = sC3after.nextId :=
  have h := c3_reconfigure_invalidates neverFails sC3 sC3after "generative" A0 argsK2
    (show ∀ kv ∈ sC3.mgr.clients, CachedClient.cid kv.2 < sC3.nextId by decide) rfl rfl
  ⟨rfl, h.1,
    h.2.1 (sC3after.get_default_client neverFails "generative").1
      (CachedClient.svc clientB1) rfl,
    (h.2.2 (by decide) (sC3after.get_default_client neverFails "generative").1 clientB1 rfl).1,
    (h.2.2 (by decide) (sC3after.get_default_client neverFails "generative").1 clientB1 rfl).2⟩

/-- C6 (counterexample): the claim fails for a `_ClientManager` instance that
is not the module-level `_client_manager`. On such an instance with an empty
snapshot, `make_client` runs the bare `configure()` of line 117, which is the
module-level function targeting `_client_manager`: the instance's own
snapshot stays empty (no configure is performed "on that same manager"), the
module-level manager is the one that gets configured, and the client is
constructed from the still-empty snapshot rather than from a freshly
defaulted one. -/
theorem c6_implicit_configure_counterexample :
    tmC6.self.client_config.isEmpty = true ∧
    (tmC6.make_client neverFails "generative").1.self = tmC6.self ∧
    (tmC6.make_client neverFails "generative").1.self.client_config.isEmpty = true ∧
    (tmC6.make_client neverFails "generative").1.globalMgr =
      (ClientManager.init.configure (some "E") noArgs).1 ∧
    (tmC6.make_client neverFails "generative").2 =
      Except.ok
        { id := 0, cls := "GenerativeServiceClient",
          config := ClientConfig.empty, wrapped := false } ∧
    ClientConfig.empty ≠ ((ClientManager.init.configure (some "E") noArgs).1).client_config :=
  ⟨rfl, rfl, rfl, rfl, rfl, by decide⟩

/-- C6 (amended): only when the manager in question is the module-level
`_client_manager` itself (so that the bare `configure()` of line 117 and
`self` coincide) does an empty stored snapshot cause `make_client` to first
perform a no-argument `configure()` on that manager and then construct the
client from the freshly defaulted snapshot (which has empty default metadata,
so the client is unwrapped). -/
theorem c6_self_configure_on_module_manager (fails : String → ClientConfig → Bool)
    (s : Sys) (name : String)
    (he : s.mgr.client_config.isEmpty = true)
    (hok : fails (clsName name) ((s.mgr.configure s.env noArgs).1).client_config = false) :
    s.make_client fails name =
      ({ mgr := (s.mgr.configure s.env noArgs).1, env := s.env, nextId := s.nextId + 1 },
       Except.ok
         { id := s.nextId, cls := clsName name,
           config := ((s.mgr.configure s.env noArgs).1).client_config,
           wrapped := false }) := by
  simp only [Sys.make_client, he]
  simp [hok, (configure_noArgs_fields s.mgr s.env).1]

/-- Witness for C6 (amended): a module-level state with a never-configured
manager configures itself on `make_client` and constructs from the freshly
defaulted snapshot. -/
theorem c6_self_configure_on_module_manager_witness :
    sEmptyCfg.mgr.client_config.isEmpty = true ∧
    sEmptyCfg.make_client neverFails "generative" =
      ({ mgr := (sEmptyCfg.mgr.configure sEmptyCfg.env noArgs).1, env := sEmptyCfg.env,
         nextId := 1 },
       Except.ok
         { id := 0, cls := "GenerativeServiceClient",
           config := ((sEmptyCfg.mgr.configure sEmptyCfg.env noArgs).1).client_config,
           wrapped := false }) :=
  ⟨rfl, c6_self_configure_on_module_manager neverFails sEmptyCfg "generative" rfl rfl⟩

end GenAI
